import Mathlib

/-!
# Verification of the investment-advisor core (scoring, allocation, validation)

Shallow embedding of the deterministic core of the repository:

* `agents/analytical_agents.py` — ValuationAgent, MomentumAgent, QualityAgent,
  RiskAgent, MutualFundScoringAgent (per-asset scoring heuristics);
* `agents/portfolio_agents.py` — PortfolioConstructionAgent, MetaController,
  RebalancingAgent (allocation, policy validation, drift analysis);
* `agent.py` — InvestmentAgent scoring weights and its mutual-fund scorer.

Python floats are modelled as `ℚ` except where the code takes a square root
(`** 0.5`), which is modelled with `Real.sqrt`.  Python dictionaries with
string keys are modelled as association lists (`List (String × ℚ)`), and
`dict.get(k, default)` as a first-match lookup with default.  Dictionary
records whose fields may be absent (`d['k']` raising `KeyError`) carry
`Option` fields.  A Python function body wrapped in `try/except` is modelled
as an `Except`-valued body plus a total handler, exactly mirroring which
operations can raise.
-/

/-- Python dictionaries with string keys and numeric values, in insertion
order. -/
abbrev Assoc := List (String × ℚ)

/-- `d.get(key, default)`: first matching key wins (Python dict keys are
unique, so on duplicate-free lists this is exactly `dict.get`). -/
def getD : Assoc → String → ℚ → ℚ
  | [], _, d => d
  | (k, v) :: rest, key, d => if k = key then v else getD rest key d

/-- Values of a dictionary, `d.values()`. -/
def valuesOf (d : Assoc) : List ℚ := d.map (fun kv => kv.2)

/-- The raising subscript `d[key]`: `some` entry, or `none` for the
`KeyError` case. -/
def lookup? : Assoc → String → Option (String × ℚ)
  | [], _ => none
  | kv :: rest, key => if kv.1 = key then some kv else lookup? rest key

/-- An asset / fund record: a Python dict whose numeric fields may be absent.
Every read in the source uses `.get(field, default)`, modelled as
`.getD default` here.  Fields named after the source keys `pe_ratio`,
`pb_ratio`, `dividend_yield`, `sector`, `returns_1y`, `historical_prices`,
`volume`, `market_cap`, `volatility`, `returns_3y`, `sharpe_ratio`,
`consistency`. -/
structure AssetData where
  peRatio : Option ℚ
  pbRatio : Option ℚ
  dividendYield : Option ℚ
  sector : Option String
  returns1y : Option ℚ
  historicalPrices : Option (List ℚ)
  volume : Option ℚ
  marketCap : Option ℚ
  volatility : Option ℚ
  returns3y : Option ℚ
  sharpeRatio : Option ℚ
  consistency : Option ℚ
deriving DecidableEq

/-- The record with no fields present (the empty dict `{}`). -/
def AssetData.empty : AssetData :=
  ⟨none, none, none, none, none, none, none, none, none, none, none, none⟩

namespace ValuationAgent

/-- `self.sector_pe_benchmarks` from `ValuationAgent.__init__`. -/
def sectorPeBenchmarks : Assoc :=
  [("Technology", 25), ("Finance", 15), ("Healthcare", 30),
   ("Consumer", 40), ("Energy", 12), ("Default", 20)]

/-- `ValuationAgent.score`.  The body has no raising operation for numeric
records, so the `except` branch (returning 0.5) is unreachable and elided. -/
def score (a : AssetData) : ℚ :=
  let sector := a.sector.getD "Default"
  let benchmarkPe := getD sectorPeBenchmarks sector 20
  let peRatio := a.peRatio.getD 0
  let peTerm := if peRatio > 0 then max 0 (1 - (peRatio / benchmarkPe - 1)) * 0.4
    else 0.5 * 0.4
  let pbRatio := a.pbRatio.getD 0
  let pbTerm := if pbRatio > 0 then max 0 (1 - pbRatio / 3) * 0.3 else 0.5 * 0.3
  let dividendYield := a.dividendYield.getD 0 * 100
  let divTerm := min (dividendYield / 5) 1 * 0.3
  min (max (peTerm + pbTerm + divTerm) 0) 1

end ValuationAgent

namespace MomentumAgent

/-- `MomentumAgent._score_returns`. -/
def scoreReturns (returns : ℚ) : ℚ :=
  if returns > 20 then 1
  else if returns < -20 then 0
  else (returns + 20) / 40

/-- `MomentumAgent._calculate_trend_strength`.  The two `0.5` early returns
model, in source order, the explicit `denominator == 0` guard and the
`ZeroDivisionError` raised by `slope / y_mean` when `y_mean == 0` (caught by
the inner `except`).  When `prices = []` Python raises on `sum(x)/0` and
returns 0.5 via the handler; in that case `denominator = 0` here, giving the
same 0.5. -/
def calculateTrendStrength (prices : List ℚ) : ℚ :=
  let n : ℚ := prices.length
  let x : List ℚ := (List.range prices.length).map (fun i => (i : ℚ))
  let xMean := x.sum / n
  let yMean := prices.sum / n
  let numerator := ((x.zip prices).map (fun q => (q.1 - xMean) * (q.2 - yMean))).sum
  let denominator := (x.map (fun xi => (xi - xMean) ^ 2)).sum
  if denominator = 0 then 0.5
  else if yMean = 0 then 0.5
  else
    let slope := numerator / denominator
    let normalizedSlope := slope / yMean * 100
    min (max ((normalizedSlope + 5) / 10) 0) 1

/-- `MomentumAgent._score_volume` (placeholder in the source). -/
def scoreVolume (_volume : ℚ) : ℚ := 0.6

/-- `MomentumAgent._calculate_rsi`.  Division by `len(gains)` cannot raise
when the length guard has passed (the list of changes is nonempty), and the
`avg_loss == 0` case returns 100 before the division by `avg_loss`. -/
def calculateRsi (prices : List ℚ) (period : Nat) : ℚ :=
  if prices.length < period + 1 then 50
  else
    let changes := (prices.zip prices.tail).map (fun q => q.2 - q.1)
    let gains := changes.map (fun c => if c > 0 then c else 0)
    let losses := changes.map (fun c => if c < 0 then -c else 0)
    let avgGain := gains.sum / gains.length
    let avgLoss := losses.sum / losses.length
    if avgLoss = 0 then 100
    else
      let rs := avgGain / avgLoss
      100 - 100 / (1 + rs)

/-- `MomentumAgent._score_rsi`. -/
def scoreRsi (rsi : ℚ) : ℚ :=
  if 40 ≤ rsi ∧ rsi ≤ 60 then 1
  else if rsi > 70 then max 0 (1 - (rsi - 70) / 30)
  else if rsi < 30 then max 0 (rsi / 30)
  else 0.8

/-- `MomentumAgent.score`.  `historical_prices[-14:]` is `drop (length - 14)`;
the RSI period is the Python default 14. -/
def score (a : AssetData) : ℚ :=
  let prices := a.historicalPrices.getD []
  let returnsTerm := scoreReturns (a.returns1y.getD 0) * 0.4
  let trendTerm :=
    (if prices.length ≥ 50 then calculateTrendStrength prices else 0.5) * 0.3
  let volumeTerm := scoreVolume (a.volume.getD 0) * 0.15
  let rsiTerm :=
    (if prices.length ≥ 14 then
      scoreRsi (calculateRsi (prices.drop (prices.length - 14)) 14)
    else 0.5) * 0.15
  min (max (returnsTerm + trendTerm + volumeTerm + rsiTerm) 0) 1

end MomentumAgent

namespace QualityAgent

/-- `QualityAgent._score_market_cap`. -/
def scoreMarketCap (marketCap : ℚ) : ℚ :=
  if marketCap > 1e12 then 1
  else if marketCap > 5e11 then 0.9
  else if marketCap > 1e11 then 0.7
  else if marketCap > 5e10 then 0.6
  else 0.4

/-- `self.sector_scores` table inside `QualityAgent._score_sector`. -/
def sectorScores : Assoc :=
  [("Technology", 0.9), ("Finance", 0.8), ("Healthcare", 0.85),
   ("Consumer", 0.75), ("Energy", 0.7), ("Industrials", 0.7),
   ("Utilities", 0.6), ("Default", 0.65)]

/-- `QualityAgent._score_sector`. -/
def scoreSector (sector : String) : ℚ := getD sectorScores sector 0.65

/-- `QualityAgent.score`. -/
def score (a : AssetData) : ℚ :=
  let capTerm := scoreMarketCap (a.marketCap.getD 0) * 0.3
  let sectorTerm := scoreSector (a.sector.getD "Unknown") * 0.25
  let growthTerm := min (max (a.returns1y.getD 0 / 30) 0) 1 * 0.25
  let stabilityTerm := max 0 (1 - a.volatility.getD 20 / 40) * 0.2
  min (max (capTerm + sectorTerm + growthTerm + stabilityTerm) 0) 1

end QualityAgent

namespace RiskAgent

/-- Loop of `RiskAgent._calculate_max_drawdown`: `none` models the
`ZeroDivisionError` raised when the running peak is 0 (caught by the inner
`except`, which returns 0). -/
def drawdownLoop : List ℚ → ℚ → ℚ → Option ℚ
  | [], _, maxDd => some maxDd
  | price :: rest, peak, maxDd =>
    let peak2 := if price > peak then price else peak
    if peak2 = 0 then none
    else
      let dd := (price - peak2) / peak2 * 100
      drawdownLoop rest peak2 (if dd < maxDd then dd else maxDd)

/-- `RiskAgent._calculate_max_drawdown`. -/
def calculateMaxDrawdown (prices : List ℚ) : ℚ :=
  if prices.length < 2 then 0
  else
    match prices with
    | [] => 0
    | p :: _ => (drawdownLoop prices p 0).getD 0

/-- `RiskAgent.score`. -/
def score (a : AssetData) : ℚ :=
  let volatility := a.volatility.getD 20
  let volTerm := max 0 (1 - volatility / 50) * 0.4
  let estimatedBeta := volatility / 20
  let betaTerm := max 0 (1 - |estimatedBeta - 1|) * 0.3
  let prices := a.historicalPrices.getD []
  let drawdownTerm :=
    (if prices.length ≥ 30 then max 0 (1 - |calculateMaxDrawdown prices| / 30)
     else 0.5) * 0.3
  min (max (volTerm + betaTerm + drawdownTerm) 0) 1

end RiskAgent

namespace MutualFundScoringAgent

/-- `MutualFundScoringAgent.score` (`agents/analytical_agents.py`). -/
def score (mf : AssetData) : ℚ :=
  let returnsTerm := min (mf.returns3y.getD 0 / 20) 1 * 0.35
  let sharpeTerm := min (mf.sharpeRatio.getD 0 / 2) 1 * 0.30
  let consistencyTerm := mf.consistency.getD 0.5 * 0.20
  let volTerm := max 0 (1 - mf.volatility.getD 15 / 30) * 0.15
  min (max (returnsTerm + sharpeTerm + consistencyTerm + volTerm) 0) 1

end MutualFundScoringAgent

namespace InvestmentAgent

/-- `InvestmentAgent._score_mutual_fund` (`agent.py`).  Note: unlike the
analytical-agents variant, the final clamp is only `min(score, 1.0)` — there
is no lower clamp at 0. -/
def scoreMutualFund (mf : AssetData) : ℚ :=
  let returnsTerm := min (mf.returns3y.getD 0 / 20) 0.4
  let consistencyTerm := mf.consistency.getD 0.5 * 0.3
  let sharpeTerm := min (mf.sharpeRatio.getD 0 / 3) 0.3
  min (returnsTerm + consistencyTerm + sharpeTerm) 1

/-- The four per-profile scoring weights, `InvestmentAgent._get_scoring_weights`. -/
structure ScoringWeights where
  valuation : ℚ
  momentum : ℚ
  quality : ℚ
  risk : ℚ
deriving DecidableEq

/-- The weight table of `_get_scoring_weights`;
`weights.get(risk_profile, weights['Balanced'])`. -/
def getScoringWeights (riskProfile : String) : ScoringWeights :=
  if riskProfile = "Conservative" then ⟨0.3, 0.2, 0.3, 0.2⟩
  else if riskProfile = "Balanced" then ⟨0.25, 0.25, 0.25, 0.25⟩
  else if riskProfile = "Aggressive" then ⟨0.2, 0.35, 0.25, 0.2⟩
  else ⟨0.25, 0.25, 0.25, 0.25⟩

/-- Sum of the four weights of a weight vector. -/
def weightsSum (w : ScoringWeights) : ℚ :=
  w.valuation + w.momentum + w.quality + w.risk

/-- The four sub-scores of one stock, `stock_scores` in
`InvestmentAgent._score_assets`. -/
structure ScoreVector where
  valuation : ℚ
  momentum : ℚ
  quality : ℚ
  risk : ℚ
deriving DecidableEq

/-- `aggregate_score = sum(stock_scores[key] * weights[key] for key in weights)`
in `InvestmentAgent._score_assets`. -/
def aggregateScore (v : ScoreVector) (w : ScoringWeights) : ℚ :=
  v.valuation * w.valuation + v.momentum * w.momentum +
    v.quality * w.quality + v.risk * w.risk

end InvestmentAgent

namespace RebalancingAgent

/-- `self.drift_threshold` from `RebalancingAgent.__init__`. -/
def driftThreshold : ℚ := 0.10

/-- One entry of the `sell` / `buy` lists of a rebalancing plan (the
human-readable `reason` string, pure presentation, is elided). -/
structure RebalanceAction where
  assetClass : String
  amount : ℚ
deriving DecidableEq

/-- The plan dict built by `RebalancingAgent._generate_rebalancing_plan`. -/
structure RebalancePlan where
  sell : List RebalanceAction
  buy : List RebalanceAction
  estimatedCost : ℚ
deriving DecidableEq

/-- The result dict of `RebalancingAgent.analyze_rebalancing_need`. -/
structure RebalanceResult where
  rebalancingNeeded : Bool
  drifts : Assoc
  maxDrift : ℚ
  recommendation : Option RebalancePlan
deriving DecidableEq

/-- Loop of `_generate_rebalancing_plan`.  `target[asset_class]` is a raising
subscript: a missing key aborts the loop with the plan accumulated so far
(`.error`), which the handler then returns with its initial
`estimated_cost = 0`. -/
def genPlanLoop (target : Assoc) (currentTotal : ℚ) (current : Assoc) :
    List (String × ℚ) → RebalancePlan → Except RebalancePlan RebalancePlan
  | [], acc => .ok acc
  | (assetClass, drift) :: rest, acc =>
    if drift > driftThreshold * 100 then
      match lookup? target assetClass with
      | none => .error acc
      | some kv =>
        let targetAmount := currentTotal * (kv.2 / 100)
        let currentAmount := getD current assetClass 0
        let difference := targetAmount - currentAmount
        let acc2 :=
          if difference > 0 then
            { acc with buy := acc.buy ++ [⟨assetClass, difference⟩] }
          else
            { acc with sell := acc.sell ++ [⟨assetClass, |difference|⟩] }
        genPlanLoop target currentTotal current rest acc2
    else genPlanLoop target currentTotal current rest acc

/-- `RebalancingAgent._generate_rebalancing_plan`. -/
def generateRebalancingPlan (current target drifts : Assoc) : RebalancePlan :=
  let currentTotal := (valuesOf current).sum
  match genPlanLoop target currentTotal current drifts ⟨[], [], 0⟩ with
  | .ok plan =>
    { plan with estimatedCost := ((plan.buy.map (fun b => b.amount)).sum) * 0.001 }
  | .error plan => plan

/-- Body of `RebalancingAgent.analyze_rebalancing_need` (inside the `try`).
No operation in it can raise for numeric dict inputs, so it is already
total; the `Except` type records what its caller observes. -/
def analyzeRebalancingNeedBody (currentPortfolio targetAllocation : Assoc) :
    Except String RebalanceResult :=
  let currentTotal := (valuesOf currentPortfolio).sum
  let drifts : Assoc := targetAllocation.map (fun kv =>
    let currentAmount := getD currentPortfolio kv.1 0
    let currentPct := if currentTotal > 0 then currentAmount / currentTotal * 100 else 0
    (kv.1, |currentPct - kv.2|))
  let rebalancingNeeded := drifts.any (fun kv => kv.2 > driftThreshold * 100)
  let maxDrift :=
    match drifts with
    | [] => 0
    | d :: ds => (ds.map (fun kv => kv.2)).foldl max d.2
  .ok ⟨rebalancingNeeded, drifts, maxDrift,
    if rebalancingNeeded then
      some (generateRebalancingPlan currentPortfolio targetAllocation drifts)
    else none⟩

/-- `RebalancingAgent.analyze_rebalancing_need`: body plus the catch-all
handler, whose fallback dict `{'rebalancing_needed': False}` reads as the
result with all other fields at their `.get` defaults. -/
def analyzeRebalancingNeed (currentPortfolio targetAllocation : Assoc) :
    Except String RebalanceResult :=
  match analyzeRebalancingNeedBody currentPortfolio targetAllocation with
  | .ok r => .ok r
  | .error _ => .ok ⟨false, [], 0, none⟩

end RebalancingAgent

/-! ## Portfolio construction and validation (`agents/portfolio_agents.py`) -/

/-- The user-profile dict as read by the portfolio layer:
`user_profile['risk_profile']` is a raising subscript (hence `Option`),
`user_profile.get('income', 0)` a defaulting read. -/
structure UserProfile where
  riskProfile : Option String
  income : Option ℚ

/-- A scored stock in `asset_scores['stocks']`: the inner dict, whose
`'aggregate_score'` key may be absent (subscripting it then raises). -/
structure StockScoreData where
  aggregateScore : Option ℚ
deriving DecidableEq

/-- The `asset_scores` argument of `PortfolioConstructionAgent.construct`:
`.get('stocks', {})` and `.get('mutual_funds', {})` are defaulting reads, so
the two sub-dicts are carried directly. -/
structure AssetScores where
  stocks : List (String × StockScoreData)
  mutualFunds : List (String × ℚ)

/-- One stock entry of `instruments['stocks']`. -/
structure StockInstrument where
  symbol : String
  amount : ℚ
  score : ℚ
deriving DecidableEq

/-- One mutual-fund entry of `instruments['mutual_funds']`. -/
structure MfInstrument where
  code : String
  amount : ℚ
  score : ℚ
deriving DecidableEq

/-- One entry of `instruments['debt']`. -/
structure DebtInstrument where
  dtype : String
  amount : ℚ
  recommendation : String
deriving DecidableEq

/-- One entry of `instruments['etfs']`. -/
structure EtfInstrument where
  etype : String
  symbol : String
  amount : ℚ
  recommendation : String
deriving DecidableEq

/-- The `instruments` dict built by
`PortfolioConstructionAgent._select_instruments`. -/
structure Instruments where
  stocks : List StockInstrument
  mutualFunds : List MfInstrument
  etfs : List EtfInstrument
  debt : List DebtInstrument
deriving DecidableEq

/-- The empty instruments dict (initial value in `_select_instruments`). -/
def Instruments.empty : Instruments := ⟨[], [], [], []⟩

/-- The validation report attached by `MetaController.validate_and_adjust`. -/
structure Validation where
  passed : Bool
  issues : List String
  adjustmentsMade : Bool
deriving DecidableEq

/-- The portfolio dict built by `PortfolioConstructionAgent.construct` and
further mutated by `MetaController`.  `validation` is `none` until the
meta-controller attaches its report. -/
structure Portfolio where
  allocation : Assoc
  strategicPercentages : Assoc
  instruments : Instruments
  totalAmount : ℚ
  riskProfile : String
  expectedReturn : ℚ
  expectedRisk : ℝ
  diversificationScore : ℝ
  validation : Option Validation

/-- The empty dict `{}` returned by `construct` on error, encoded as the
portfolio on which every defaulting read of the meta-controller yields its
default (`allocation`/`strategic_percentages` → `{}`,
`diversification_score`/`total_amount` → 0, no validation key).  This
encoding is observationally equal to `{}` for every read the source
performs. -/
def Portfolio.empty : Portfolio := ⟨[], [], Instruments.empty, 0, "", 0, 0, 0, none⟩

/-- Extract the portfolio from a caller-observed result (`.error` cannot in
fact occur; see the no-raise theorems). -/
def runOk (e : Except String Portfolio) (d : Portfolio) : Portfolio :=
  match e with
  | .ok p => p
  | .error _ => d

namespace PortfolioConstructionAgent

/-- The strategic allocation table of
`PortfolioConstructionAgent._get_strategic_allocation`;
`allocations.get(risk_profile, allocations['Balanced'])`.  The identical
table also appears verbatim as `target_allocations` in
`MetaController._rebalance_for_risk`. -/
def getStrategicAllocation (riskProfile : String) : Assoc :=
  if riskProfile = "Conservative" then
    [("Equity", 30), ("Debt", 50), ("Gold", 15), ("Cash", 5)]
  else if riskProfile = "Balanced" then
    [("Equity", 50), ("Debt", 35), ("Gold", 10), ("Cash", 5)]
  else if riskProfile = "Aggressive" then
    [("Equity", 70), ("Debt", 20), ("Gold", 5), ("Cash", 5)]
  else
    [("Equity", 50), ("Debt", 35), ("Gold", 10), ("Cash", 5)]

/-- Stable insertion of `a` into a list already sorted by descending `key`:
`a` goes after every element with key ≥ its own. -/
def insertDesc {α : Type} (key : α → ℚ) (a : α) : List α → List α
  | [] => [a]
  | b :: rest => if key b ≥ key a then b :: insertDesc key a rest else a :: b :: rest

/-- `sorted(l, key=key, reverse=True)`: stable descending sort. -/
def sortDescBy {α : Type} (key : α → ℚ) (l : List α) : List α :=
  l.foldl (fun acc a => insertDesc key a acc) []

/-- `PortfolioConstructionAgent._select_instruments`.  The only raising
operation in the `try` is the sort key `x[1]['aggregate_score']`; if any
stock record lacks that key the handler returns the still-empty instrument
lists.  After a successful sort every later read of the key succeeds. -/
def selectInstruments (assetScores : AssetScores) (allocation : Assoc)
    (riskProfile : String) : Instruments :=
  if assetScores.stocks.any (fun kv => kv.2.aggregateScore.isNone) then
    Instruments.empty
  else
    let sortedStocks :=
      sortDescBy (fun kv => kv.2.aggregateScore.getD 0) assetScores.stocks
    let equityAmount := getD allocation "Equity" 0
    let numStocks := if riskProfile = "Conservative" then 5 else 7
    let topStocks := sortedStocks.take numStocks
    let stocks :=
      if topStocks.isEmpty then []
      else
        let amountPerStock := equityAmount * 0.6 / (topStocks.length : ℚ)
        topStocks.map (fun kv =>
          StockInstrument.mk kv.1 amountPerStock (kv.2.aggregateScore.getD 0))
    let sortedMfs := sortDescBy (fun kv => kv.2) assetScores.mutualFunds
    let topMfs := sortedMfs.take 3
    let mutualFunds :=
      if topMfs.isEmpty then []
      else
        let amountPerMf := equityAmount * 0.4 / (topMfs.length : ℚ)
        topMfs.map (fun kv => MfInstrument.mk kv.1 amountPerMf kv.2)
    let debtAmount := getD allocation "Debt" 0
    let debt :=
      if debtAmount > 0 then
        [DebtInstrument.mk "Debt Mutual Funds" (debtAmount * 0.6) "HDFC Corporate Bond Fund",
         DebtInstrument.mk "Fixed Deposits" (debtAmount * 0.4) "Bank FDs"]
      else []
    let goldAmount := getD allocation "Gold" 0
    let etfs :=
      if goldAmount > 0 then
        [EtfInstrument.mk "Gold ETF" "GOLDBEES.NS" goldAmount "HDFC Gold ETF"]
      else []
    ⟨stocks, mutualFunds, etfs, debt⟩

/-- `expected_returns` table of `_estimate_return` (identical in
`PortfolioConstructionAgent` and `MetaController`). -/
def expectedReturnsTable : Assoc :=
  [("Equity", 12), ("Debt", 7), ("Gold", 8), ("Cash", 4)]

/-- `_estimate_return`: iterates the keys of `allocation`, reading back
`allocation.get(asset, 0)` for each. -/
def estimateReturn (allocation : Assoc) : ℚ :=
  (allocation.map (fun kv =>
    getD allocation kv.1 0 * getD expectedReturnsTable kv.1 0 / 100)).sum

/-- `asset_risks` table of `_estimate_risk` (identical in both classes). -/
def assetRisksTable : Assoc :=
  [("Equity", 18), ("Debt", 5), ("Gold", 12), ("Cash", 1)]

/-- The sum under the square root in `_estimate_risk`. -/
def estimateRiskSq (allocation : Assoc) : ℚ :=
  (allocation.map (fun kv =>
    (getD allocation kv.1 0 / 100) ^ 2 * getD assetRisksTable kv.1 0 ^ 2)).sum

/-- `_estimate_risk`: `(...) ** 0.5` on the (nonnegative) weighted sum of
squares. -/
noncomputable def estimateRisk (allocation : Assoc) : ℝ :=
  Real.sqrt (estimateRiskSq allocation)

/-- `PortfolioConstructionAgent._calculate_diversification`: the
entropy-like measure `-Σ p·√p` over positive proportions, then
`min(entropy / 2, 1)`. -/
noncomputable def calculateDiversification (allocation : Assoc) : ℝ :=
  let total := (valuesOf allocation).sum
  if total = 0 then 0
  else
    let proportions := (valuesOf allocation).map (fun v => v / total)
    let entropy : ℝ :=
      -(((proportions.filter (fun p => p > 0)).map
          (fun p : ℚ => (p : ℝ) * Real.sqrt (p : ℝ))).sum)
    min (entropy / 2) 1

/-- Body of `PortfolioConstructionAgent.construct` (inside the `try`).  The
only raising operation is the subscript `user_profile['risk_profile']`. -/
noncomputable def constructBody (userProfile : UserProfile)
    (assetScores : AssetScores) (investmentAmount : ℚ) :
    Except String Portfolio :=
  match userProfile.riskProfile with
  | none => .error "KeyError: risk_profile"
  | some riskProfile =>
    let strategicAllocation := getStrategicAllocation riskProfile
    let allocation := strategicAllocation.map
      (fun kv => (kv.1, investmentAmount * (kv.2 / 100)))
    let selectedInstruments := selectInstruments assetScores allocation riskProfile
    .ok ⟨allocation, strategicAllocation, selectedInstruments, investmentAmount,
      riskProfile, estimateReturn strategicAllocation,
      estimateRisk strategicAllocation, calculateDiversification allocation, none⟩

/-- `PortfolioConstructionAgent.construct`: body plus the catch-all handler
(`except` → `return {}`). -/
noncomputable def construct (userProfile : UserProfile)
    (assetScores : AssetScores) (investmentAmount : ℚ) :
    Except String Portfolio :=
  match constructBody userProfile assetScores investmentAmount with
  | .ok p => .ok p
  | .error _ => .ok Portfolio.empty

end PortfolioConstructionAgent

namespace MetaController

open PortfolioConstructionAgent

/-- `MetaController._rebalance_for_risk`.  Its `target_allocations` table and
`_estimate_return` / `_estimate_risk` helpers are verbatim copies of the
`PortfolioConstructionAgent` ones and are shared here.  No operation in its
`try` can raise, so the handler (returning the portfolio unchanged) is dead
code. -/
noncomputable def rebalanceForRisk (portfolio : Portfolio) (targetRisk : String) :
    Portfolio :=
  let target := getStrategicAllocation targetRisk
  let totalAmount := portfolio.totalAmount
  let newAllocation := target.map (fun kv => (kv.1, totalAmount * (kv.2 / 100)))
  { portfolio with
    allocation := newAllocation
    strategicPercentages := target
    expectedReturn := estimateReturn target
    expectedRisk := estimateRisk target }

/-- Body of `MetaController.validate_and_adjust` (inside the `try`).  The
only raising operation is `user_profile['risk_profile']`.  Note two source
subtleties modelled exactly: the local `allocation` is bound before any
rebalancing, so check 4 reads the Cash amount of the *original* allocation;
and `div_score` is read from the possibly-rebalanced portfolio. -/
noncomputable def validateBody (portfolio : Portfolio) (userProfile : UserProfile) :
    Except String Portfolio :=
  let allocation := portfolio.allocation
  let totalPct := (valuesOf portfolio.strategicPercentages).sum
  let issues1 : List String :=
    if |totalPct - 100| > 1 then
      ["Allocation doesn\x27t sum to 100% (" ++ toString totalPct ++ "%)"]
    else []
  match userProfile.riskProfile with
  | none => .error "KeyError: risk_profile"
  | some riskProfile =>
    let equityPct := getD portfolio.strategicPercentages "Equity" 0
    let branch : List String × Portfolio :=
      if riskProfile = "Conservative" ∧ equityPct > 40 then
        (["Equity allocation too high for Conservative profile"],
         rebalanceForRisk portfolio "Conservative")
      else if riskProfile = "Aggressive" ∧ equityPct < 60 then
        (["Equity allocation too low for Aggressive profile"],
         rebalanceForRisk portfolio "Aggressive")
      else ([], portfolio)
    let issues2 := branch.1
    let portfolio2 := branch.2
    let divScore := portfolio2.diversificationScore
    let issues3 : List String :=
      if divScore < 0.3 then ["Insufficient diversification"] else []
    let cashAmount := getD allocation "Cash" 0
    let monthlyIncome := userProfile.income.getD 0
    let issues4 : List String :=
      if cashAmount < monthlyIncome * 3 then
        ["Consider building larger emergency fund"]
      else []
    let issues := issues1 ++ issues2 ++ issues3 ++ issues4
    .ok { portfolio2 with
      validation := some ⟨issues.isEmpty, issues, !issues.isEmpty⟩ }

/-- `MetaController.validate_and_adjust`: body plus the catch-all handler
(`except` → `return portfolio`; the one raising operation sits before any
mutation, so the input is returned unchanged). -/
noncomputable def validateAndAdjust (portfolio : Portfolio)
    (userProfile : UserProfile) : Except String Portfolio :=
  match validateBody portfolio userProfile with
  | .ok p => .ok p
  | .error _ => .ok portfolio

end MetaController

open PortfolioConstructionAgent in
/-- The portfolio record `PortfolioConstructionAgent.construct` builds when
the profile key is present, spelled out once for reuse in statements and
proofs. -/
noncomputable def constructedPortfolio (rp : String) (s : AssetScores) (amt : ℚ) :
    Portfolio :=
  { allocation := (getStrategicAllocation rp).map (fun kv => (kv.1, amt * (kv.2 / 100))),
    strategicPercentages := getStrategicAllocation rp,
    instruments := selectInstruments s
      ((getStrategicAllocation rp).map (fun kv => (kv.1, amt * (kv.2 / 100)))) rp,
    totalAmount := amt,
    riskProfile := rp,
    expectedReturn := estimateReturn (getStrategicAllocation rp),
    expectedRisk := estimateRisk (getStrategicAllocation rp),
    diversificationScore := calculateDiversification
      ((getStrategicAllocation rp).map (fun kv => (kv.1, amt * (kv.2 / 100)))),
    validation := none }

/-! ## General lemmas -/

/-- `construct` on a profile that has the `risk_profile` key succeeds and
returns exactly the spelled-out record. -/
theorem construct_some_ok (rp : String) (inc : Option ℚ) (s : AssetScores) (amt : ℚ) :
    PortfolioConstructionAgent.construct ⟨some rp, inc⟩ s amt =
      .ok (constructedPortfolio rp s amt) := rfl

/-- The diversification score of the source is never positive: the
entropy-like sum `-Σ p·√p` over positive proportions is nonpositive, and so
is `min(entropy / 2, 1)`. -/
theorem calculateDiversification_nonpos (allocation : Assoc) :
    PortfolioConstructionAgent.calculateDiversification allocation ≤ 0 := by
  unfold PortfolioConstructionAgent.calculateDiversification
  dsimp only
  split
  · exact le_refl 0
  · refine le_trans (min_le_left _ _) ?_
    apply div_nonpos_of_nonpos_of_nonneg _ (by norm_num)
    rw [neg_nonpos]
    apply List.sum_nonneg
    intro x hx
    simp only [List.mem_map] at hx
    obtain ⟨p, hp, rfl⟩ := hx
    have hp2 : (0 : ℚ) < p := of_decide_eq_true (List.mem_filter.mp hp).2
    exact mul_nonneg (by exact_mod_cast hp2.le) (Real.sqrt_nonneg _)

open MetaController PortfolioConstructionAgent in
/-- Evaluation of `validate_and_adjust`'s body when neither equity bound is
violated and the diversification check fires (as it always does, the score
being nonpositive): no reallocation, and the issue list holds the possible
sum issue, the diversification issue, and the possible emergency-fund
issue. -/
theorem validateBody_ok_no_rebalance (p : Portfolio) (rp : String) (inc : Option ℚ)
    (hc : ¬(rp = "Conservative" ∧ getD p.strategicPercentages "Equity" 0 > 40))
    (ha : ¬(rp = "Aggressive" ∧ getD p.strategicPercentages "Equity" 0 < 60))
    (hdiv : p.diversificationScore < 0.3) :
    validateBody p ⟨some rp, inc⟩ = .ok { p with validation := some ⟨false,
      (if |(valuesOf p.strategicPercentages).sum - 100| > 1 then
        ["Allocation doesn\x27t sum to 100% (" ++
          toString ((valuesOf p.strategicPercentages).sum) ++ "%)"]
      else []) ++
      ("Insufficient diversification" ::
        (if getD p.allocation "Cash" 0 < inc.getD 0 * 3 then
          ["Consider building larger emergency fund"]
        else [])), true⟩ } := by
  simp only [validateBody]
  rw [if_neg hc, if_neg ha, if_pos hdiv]
  simp


/-- The final clamp `min(max(score, 0), 1)` of every analytical scorer lands
in the unit interval. -/
theorem clamp01_mem (x : ℚ) : min (max x 0) 1 ∈ Set.Icc (0 : ℚ) 1 := by
  rw [Set.mem_Icc]
  exact ⟨le_min (le_max_right x 0) zero_le_one, min_le_right _ _⟩

/-! ## Claims -/

/-- Claim C3: for the current portfolio {Equity:80, Debt:10, Gold:5, Cash:5}
and target {Equity:50, Debt:35, Gold:10, Cash:5}, the rebalancing agent
flags rebalancing with Equity drift 30, emits exactly a sell action for
Equity of 30 and a buy action for Debt of 25 (nothing for Gold, drift 5),
and estimates cost 0.1% of the buy-side total, 0.025. -/
theorem rebalancing_analysis_concrete :
    RebalancingAgent.analyzeRebalancingNeed
      [("Equity", 80), ("Debt", 10), ("Gold", 5), ("Cash", 5)]
      [("Equity", 50), ("Debt", 35), ("Gold", 10), ("Cash", 5)] =
    .ok ⟨true, [("Equity", 30), ("Debt", 25), ("Gold", 5), ("Cash", 0)], 30,
      some ⟨[⟨"Equity", 30⟩], [⟨"Debt", 25⟩], 0.025⟩⟩ := by
  simp only [RebalancingAgent.analyzeRebalancingNeed,
    RebalancingAgent.analyzeRebalancingNeedBody,
    RebalancingAgent.generateRebalancingPlan, RebalancingAgent.genPlanLoop,
    RebalancingAgent.driftThreshold, getD, valuesOf, lookup?, List.map,
    List.sum_cons, List.sum_nil, List.any, List.foldl]
  simp
  norm_num

/-- Claim C5, counterexample: on 20 identical prices the RSI helper does not
return the neutral 50 the spec demands. -/
theorem rsi_flat_sequence_ne_50 :
    MomentumAgent.calculateRsi (List.replicate 20 1) 14 ≠ 50 := by
  norm_num [MomentumAgent.calculateRsi, List.replicate]

/-- Claim C5, amended: on 20 identical prices (period 14) the RSI helper
returns 100 — the `avg_loss == 0` branch fires even though there are no
gains either; 50 is returned only on insufficient history, e.g. on the
14-price window the momentum scorer actually passes. -/
theorem rsi_flat_sequence_eq_100 :
    MomentumAgent.calculateRsi (List.replicate 20 1) 14 = 100 ∧
    MomentumAgent.calculateRsi (List.replicate 14 1) 14 = 50 := by
  constructor <;> norm_num [MomentumAgent.calculateRsi, List.replicate]

/-- Claim C6: for every asset record, each of the four analytical sub-scores
(valuation, momentum, quality, risk) lies in [0,1] — each scorer ends in the
clamp `min(max(score, 0), 1)`. -/
theorem analytic_scores_in_unit_interval (a : AssetData) :
    ValuationAgent.score a ∈ Set.Icc (0 : ℚ) 1 ∧
    MomentumAgent.score a ∈ Set.Icc (0 : ℚ) 1 ∧
    QualityAgent.score a ∈ Set.Icc (0 : ℚ) 1 ∧
    RiskAgent.score a ∈ Set.Icc (0 : ℚ) 1 :=
  ⟨clamp01_mem _, clamp01_mem _, clamp01_mem _, clamp01_mem _⟩

/-- Claim C7, counterexample: the `agent.py` fund scorer lacks the lower
clamp, so a fund with `returns_3y = -40`, `consistency = 0`,
`sharpe_ratio = 0` scores −2, outside [0,1]. -/
theorem scoreMutualFund_neg_outside_unit_interval :
    InvestmentAgent.scoreMutualFund
      ⟨none, none, none, none, none, none, none, none, none,
        some (-40), some 0, some 0⟩ = -2 ∧
    InvestmentAgent.scoreMutualFund
      ⟨none, none, none, none, none, none, none, none, none,
        some (-40), some 0, some 0⟩ ∉ Set.Icc (0 : ℚ) 1 := by
  rw [Set.mem_Icc]
  norm_num [InvestmentAgent.scoreMutualFund]

/-- Claim C7, amended: the analytical-agents fund scorer
(`MutualFundScoringAgent.score`) is clamped to [0,1] for every record, while
the `agent.py` variant (`InvestmentAgent._score_mutual_fund`) is clamped
only from above by 1 and can go below 0 for negative `returns_3y` or
`sharpe_ratio`. -/
theorem fund_scores_clamped (mf : AssetData) :
    MutualFundScoringAgent.score mf ∈ Set.Icc (0 : ℚ) 1 ∧
    InvestmentAgent.scoreMutualFund mf ≤ 1 :=
  ⟨clamp01_mem _, min_le_right _ _⟩

/-- Claim C8: each risk profile's scoring weight vector sums to exactly 1
(hence within 1e-9 of 1.0), and under the Balanced weights the all-ones
score vector aggregates to 1 and the all-zeros vector to 0. -/
theorem scoring_weights_sum_one_and_aggregate :
    InvestmentAgent.weightsSum (InvestmentAgent.getScoringWeights "Conservative") = 1 ∧
    InvestmentAgent.weightsSum (InvestmentAgent.getScoringWeights "Balanced") = 1 ∧
    InvestmentAgent.weightsSum (InvestmentAgent.getScoringWeights "Aggressive") = 1 ∧
    InvestmentAgent.aggregateScore ⟨1, 1, 1, 1⟩
      (InvestmentAgent.getScoringWeights "Balanced") = 1 ∧
    InvestmentAgent.aggregateScore ⟨0, 0, 0, 0⟩
      (InvestmentAgent.getScoringWeights "Balanced") = 0 := by
  simp only [InvestmentAgent.weightsSum, InvestmentAgent.getScoringWeights,
    InvestmentAgent.aggregateScore]
  simp
  norm_num

/-- Claim C9: none of the three public portfolio operations ever propagates
an exception: for all (dictionary) inputs each returns an ordinary result to
its caller — every raising operation sits inside the method's catch-all
handler. -/
theorem public_ops_never_raise :
    (∀ up s amt, ∃ p, PortfolioConstructionAgent.construct up s amt = .ok p) ∧
    (∀ p up, ∃ q, MetaController.validateAndAdjust p up = .ok q) ∧
    (∀ cur tgt, ∃ r, RebalancingAgent.analyzeRebalancingNeed cur tgt = .ok r) := by
  refine ⟨fun up s amt => ?_, fun p up => ?_, fun cur tgt => ?_⟩
  · unfold PortfolioConstructionAgent.construct
    cases PortfolioConstructionAgent.constructBody up s amt
    · exact ⟨_, rfl⟩
    · exact ⟨_, rfl⟩
  · unfold MetaController.validateAndAdjust
    cases MetaController.validateBody p up
    · exact ⟨_, rfl⟩
    · exact ⟨_, rfl⟩
  · exact ⟨_, rfl⟩

/-- Claim C10: `_rebalance_for_risk` replaces exactly the allocation,
strategic percentages, expected return and expected risk (the latter two
recomputed from the target table), and leaves the instruments,
diversification score, total amount and risk profile untouched — so the
instrument selection still reflects the pre-adjustment equity bucket. -/
theorem rebalance_for_risk_frame (p : Portfolio) (t : String) :
    (MetaController.rebalanceForRisk p t).instruments = p.instruments ∧
    (MetaController.rebalanceForRisk p t).diversificationScore = p.diversificationScore ∧
    (MetaController.rebalanceForRisk p t).totalAmount = p.totalAmount ∧
    (MetaController.rebalanceForRisk p t).riskProfile = p.riskProfile ∧
    (MetaController.rebalanceForRisk p t).strategicPercentages =
      PortfolioConstructionAgent.getStrategicAllocation t ∧
    (MetaController.rebalanceForRisk p t).allocation =
      (PortfolioConstructionAgent.getStrategicAllocation t).map
        (fun kv => (kv.1, p.totalAmount * (kv.2 / 100))) ∧
    (MetaController.rebalanceForRisk p t).expectedReturn =
      PortfolioConstructionAgent.estimateReturn
        (PortfolioConstructionAgent.getStrategicAllocation t) ∧
    (MetaController.rebalanceForRisk p t).expectedRisk =
      PortfolioConstructionAgent.estimateRisk
        (PortfolioConstructionAgent.getStrategicAllocation t) :=
  ⟨rfl, rfl, rfl, rfl, rfl, rfl, rfl, rfl⟩

open MetaController PortfolioConstructionAgent in
/-- Claim C1, counterexample: for the Conservative profile with income 0, no
scored assets and a budget of 100000, feeding `construct`'s own output back
into `validate_and_adjust` yields `validation.passed = False`, not the
`True`-with-no-issues round-trip the spec demands. -/
theorem roundtrip_conservative_not_passed :
    ((runOk (validateAndAdjust
        (runOk (construct ⟨some "Conservative", some 0⟩ ⟨[], []⟩ 100000) Portfolio.empty)
        ⟨some "Conservative", some 0⟩) Portfolio.empty).validation.map
      Validation.passed) = some false := by
  rw [construct_some_ok]
  have hv := validateBody_ok_no_rebalance
    (constructedPortfolio "Conservative" ⟨[], []⟩ 100000) "Conservative" (some 0)
    (by rintro ⟨-, hgt⟩
        simp [constructedPortfolio, getStrategicAllocation, getD] at hgt
        norm_num at hgt)
    (by rintro ⟨heq, -⟩; simp at heq)
    (lt_of_le_of_lt (calculateDiversification_nonpos _) (by norm_num))
  simp only [runOk, validateAndAdjust, hv]
  simp

open MetaController PortfolioConstructionAgent in
/-- Claim C1, amended: for each of the three risk profiles and every income,
asset-score set and budget, the round trip construct → validate never
passes: the equity bound holds (no reallocation issue), but the
diversification check always fails because the source's diversification
score is never positive, so `validation.passed = False` and
"Insufficient diversification" is reported. -/
theorem roundtrip_validation_always_flags_diversification (rp : String)
    (hrp : rp = "Conservative" ∨ rp = "Balanced" ∨ rp = "Aggressive")
    (inc : Option ℚ) (s : AssetScores) (amt : ℚ) :
    ∃ p q v, construct ⟨some rp, inc⟩ s amt = .ok p ∧
      validateAndAdjust p ⟨some rp, inc⟩ = .ok q ∧
      q.validation = some v ∧ v.passed = false ∧
      "Insufficient diversification" ∈ v.issues := by
  have key : ∀ p : Portfolio,
      ¬(rp = "Conservative" ∧ getD p.strategicPercentages "Equity" 0 > 40) →
      ¬(rp = "Aggressive" ∧ getD p.strategicPercentages "Equity" 0 < 60) →
      p.diversificationScore < 0.3 →
      ∃ q v, validateAndAdjust p ⟨some rp, inc⟩ = .ok q ∧
        q.validation = some v ∧ v.passed = false ∧
        "Insufficient diversification" ∈ v.issues := by
    intro p hc ha hdiv
    have hv := validateBody_ok_no_rebalance p rp inc hc ha hdiv
    unfold validateAndAdjust
    rw [hv]
    exact ⟨_, _, rfl, rfl, rfl, by simp⟩
  have hdiv : ∀ rp2 s2 amt2,
      (constructedPortfolio rp2 s2 amt2).diversificationScore < 0.3 :=
    fun rp2 s2 amt2 =>
      lt_of_le_of_lt (calculateDiversification_nonpos _) (by norm_num)
  rcases hrp with rfl | rfl | rfl
  · obtain ⟨q, v, h1, h2, h3, h4⟩ := key (constructedPortfolio "Conservative" s amt)
      (by rintro ⟨-, hgt⟩
          simp [constructedPortfolio, getStrategicAllocation, getD] at hgt
          norm_num at hgt)
      (by rintro ⟨heq, -⟩; simp at heq)
      (hdiv _ s amt)
    exact ⟨_, q, v, construct_some_ok _ inc s amt, h1, h2, h3, h4⟩
  · obtain ⟨q, v, h1, h2, h3, h4⟩ := key (constructedPortfolio "Balanced" s amt)
      (by rintro ⟨heq, -⟩; simp at heq)
      (by rintro ⟨heq, -⟩; simp at heq)
      (hdiv _ s amt)
    exact ⟨_, q, v, construct_some_ok _ inc s amt, h1, h2, h3, h4⟩
  · obtain ⟨q, v, h1, h2, h3, h4⟩ := key (constructedPortfolio "Aggressive" s amt)
      (by rintro ⟨heq, -⟩; simp at heq)
      (by rintro ⟨-, hlt⟩
          simp [constructedPortfolio, getStrategicAllocation, getD] at hlt
          norm_num at hlt)
      (hdiv _ s amt)
    exact ⟨_, q, v, construct_some_ok _ inc s amt, h1, h2, h3, h4⟩

open MetaController PortfolioConstructionAgent in
/-- Witness for the amended claim C1, at the Conservative profile with
income 0, no scored assets and budget 100000. -/
theorem roundtrip_validation_always_flags_diversification_witness :
    ("Conservative" = "Conservative" ∨ "Conservative" = "Balanced" ∨
      "Conservative" = "Aggressive") ∧
    ∃ p q v, construct ⟨some "Conservative", some 0⟩ ⟨[], []⟩ 100000 = .ok p ∧
      validateAndAdjust p ⟨some "Conservative", some 0⟩ = .ok q ∧
      q.validation = some v ∧ v.passed = false ∧
      "Insufficient diversification" ∈ v.issues :=
  ⟨Or.inl rfl, roundtrip_validation_always_flags_diversification "Conservative"
    (Or.inl rfl) (some 0) ⟨[], []⟩ 100000⟩

open MetaController PortfolioConstructionAgent in
/-- Claim C2: for a Conservative user and any portfolio whose strategic
Equity percentage exceeds 40 (such as 55), `validate_and_adjust` replaces
the strategic percentages with the fixed Conservative table
{Equity 30, Debt 50, Gold 15, Cash 5}, rederives the currency allocation
from it, recomputes expected return and risk from that table, and reports
`validation.passed = False`. -/
theorem conservative_equity_violation_full_reallocation (p : Portfolio)
    (inc : Option ℚ) (h : getD p.strategicPercentages "Equity" 0 > 40) :
    ∃ q v, validateAndAdjust p ⟨some "Conservative", inc⟩ = .ok q ∧
      q.strategicPercentages = [("Equity", 30), ("Debt", 50), ("Gold", 15), ("Cash", 5)] ∧
      q.allocation = [("Equity", p.totalAmount * (30 / 100)),
        ("Debt", p.totalAmount * (50 / 100)), ("Gold", p.totalAmount * (15 / 100)),
        ("Cash", p.totalAmount * (5 / 100))] ∧
      q.expectedReturn =
        estimateReturn [("Equity", 30), ("Debt", 50), ("Gold", 15), ("Cash", 5)] ∧
      q.expectedRisk =
        estimateRisk [("Equity", 30), ("Debt", 50), ("Gold", 15), ("Cash", 5)] ∧
      q.validation = some v ∧ v.passed = false := by
  simp only [validateAndAdjust, validateBody]
  rw [if_pos]
  · refine ⟨_, _, rfl, ?_, ?_, ?_, ?_, rfl, ?_⟩
    · simp [rebalanceForRisk, getStrategicAllocation]
    · simp [rebalanceForRisk, getStrategicAllocation]
    · simp [rebalanceForRisk, getStrategicAllocation]
    · simp [rebalanceForRisk, getStrategicAllocation]
    · simp
  · exact ⟨trivial, h⟩

open MetaController PortfolioConstructionAgent in
/-- Witness for claim C2, at a portfolio with strategic Equity 55 and total
amount 100000 under a Conservative user with income 0. -/
theorem conservative_equity_violation_full_reallocation_witness :
    getD [("Equity", (55 : ℚ)), ("Debt", 25), ("Gold", 10), ("Cash", 10)] "Equity" 0 > 40 ∧
    ∃ q v, validateAndAdjust
        ⟨[("Equity", 55000), ("Debt", 25000), ("Gold", 10000), ("Cash", 10000)],
         [("Equity", 55), ("Debt", 25), ("Gold", 10), ("Cash", 10)],
         Instruments.empty, 100000, "Conservative", 0, 0, 0, none⟩
        ⟨some "Conservative", some 0⟩ = .ok q ∧
      q.strategicPercentages = [("Equity", 30), ("Debt", 50), ("Gold", 15), ("Cash", 5)] ∧
      q.allocation = [("Equity", (100000 : ℚ) * (30 / 100)),
        ("Debt", (100000 : ℚ) * (50 / 100)), ("Gold", (100000 : ℚ) * (15 / 100)),
        ("Cash", (100000 : ℚ) * (5 / 100))] ∧
      q.expectedReturn =
        estimateReturn [("Equity", 30), ("Debt", 50), ("Gold", 15), ("Cash", 5)] ∧
      q.expectedRisk =
        estimateRisk [("Equity", 30), ("Debt", 50), ("Gold", 15), ("Cash", 5)] ∧
      q.validation = some v ∧ v.passed = false :=
  ⟨by norm_num [getD], conservative_equity_violation_full_reallocation
    ⟨[("Equity", 55000), ("Debt", 25000), ("Gold", 10000), ("Cash", 10000)],
     [("Equity", 55), ("Debt", 25), ("Gold", 10), ("Cash", 10)],
     Instruments.empty, 100000, "Conservative", 0, 0, 0, none⟩
    (some 0) (by norm_num [getD])⟩

/-- Claim C4: evaluating `_calculate_diversification` at the all-in-Equity
allocation (positive total 1) yields −1/2, outside the [0,1] range promised
by its own docstring and the spec. -/
theorem diversification_singleton_negative :
    PortfolioConstructionAgent.calculateDiversification [("Equity", 1)] = -(1 / 2) ∧
    PortfolioConstructionAgent.calculateDiversification [("Equity", 1)] ∉
      Set.Icc (0 : ℝ) 1 := by
  have h : PortfolioConstructionAgent.calculateDiversification [("Equity", 1)] =
      -(1 / 2) := by
    unfold PortfolioConstructionAgent.calculateDiversification
    norm_num [valuesOf]
  refine ⟨h, ?_⟩
  rw [Set.mem_Icc, h]
  norm_num
